import Mathlib

set_option maxRecDepth 100000
set_option maxHeartbeats 2000000

/-!
Shallow embedding of `rsa_try_mahalanobis.py` (representational similarity
analysis for tactile mental imagery).  The script is straight-line glue code
around opaque library calls (rsatoolbox, scipy, statsmodels, nibabel) and the
helper module `rsa_functions`; following the specification those calls are
modelled as fields of an environment record `Env` over an abstract value type
`V`, while everything the script itself does (constants, loops, condition
selection, report formatting, file paths, order of effects) is embedded as
executable Lean definitions.  A run of the script is the event trace
`run_trace env`; files on disk are the fold `files_state` over that trace.
-/

namespace RsaScript

/-- Source line 19: the data directory constant. -/
def datapath : String := "/Volumes/INTENSO/data/"

/-- Source line 21: the result directory constant. -/
def resultpath : String := "../analysis/"

/-- Source line 24: the ten subject identifiers. -/
def subjects : List String :=
  ["001", "002", "003", "004", "005", "006", "007", "008", "009", "010"]

/-- Source lines 27-28: all six condition names. -/
def all_conditions : List String :=
  ["stim_press", "stim_flutt", "stim_vibro", "imag_press", "imag_flutt", "imag_vibro"]

/-- Source lines 29-30: the selected conditions (identical to all six). -/
def selected_conditions : List String :=
  ["stim_press", "stim_flutt", "stim_vibro", "imag_press", "imag_flutt", "imag_vibro"]

/-- Source line 33: the six run identifiers. -/
def runs : List String := ["01", "02", "03", "04", "05", "06"]

/-- Source line 43: the five regions of interest. -/
def regions_of_interest : List String :=
  ["rPSC_2", "rPSC_1", "rPSC_3b", "rSII_TR50_right", "rSII_TR50_left"]

/-- Source line 85: the observation-descriptor key. -/
def conditions_key : String := "conditions"

/-- Source lines 91-92: labels "conditions1".."conditions3" built from range(1,4). -/
def stimulation_conditions : List String :=
  (List.range' 1 3).map fun n => conditions_key ++ toString n

/-- Source lines 93-94: labels "conditions4".."conditions6" built from range(4,7). -/
def imagery_conditions : List String :=
  (List.range' 4 3).map fun n => conditions_key ++ toString n

/-- Source line 158: the RDM comparison method. -/
def method : String := "corr"

/-- Python `int` on the decimal subject strings ("001" to 1, "010" to 10). -/
def pyInt (s : String) : Nat :=
  s.data.foldl (fun a c => a * 10 + (c.toNat - 48)) 0

/-- A rsatoolbox dataset as far as this script observes it: the list of
observation rows, each carrying its `conditions` descriptor value and its
voxel-value vector. -/
abbrev RsaDataset (V : Type) := List (String × List V)

/-- Source lines 99-100 (`dataset.subset_obs(by=conditions_key, value=...)`):
keep the observations whose conditions label is in `value`. -/
def subset_obs {V : Type} (d : RsaDataset V) (value : List String) : RsaDataset V :=
  d.filter fun x => value.contains x.1

/-- Modelled from the spec: `create_rsa_datasets` lives in the absent helper
module `rsa_functions`.  Per the specification's interface contract (arrays of
voxel values plus condition labels) and the source comments at lines 80-87, it
turns the 3-D region array (6 conditions, region voxels, `n` participants)
into one dataset per participant whose observations are the six condition
rows labelled `key ++ "1"` .. `key ++ "6"`. -/
def create_rsa_datasets {V : Type} (data : Nat → Nat → List V) (n : Nat)
    (key : String) : List (RsaDataset V) :=
  (List.range n).map fun p =>
    (List.range 6).map fun c => (key ++ toString (c + 1), data c p)

/-- The scipy one-sample t-test result as far as the script reads it. -/
structure TTestResult (V : Type) where
  statistic : V
  pvalue : V
  df : V

/-- The pandas dataframe handed to `AnovaRM` (source lines 209-211). -/
structure AnovaFrame (V : Type) where
  subject_col : List Nat
  rois_col : List Nat
  similiarity_col : List V

/-- The opaque collaborators of the script: the absent helper module
`rsa_functions`, rsatoolbox, nibabel, numpy/scipy statistics, statsmodels and
text (de)serialization.  Per the specification these are consumed as opaque
library calls with numeric contracts, so each is an arbitrary function over
the abstract value type `V`.  Fields whose originals are in the absent helper
module (`format_data_for_subject`, `average_over_runs`,
`get_voxels_from_region_of_interest`, `rearrange_array`, the two serializers)
are modelled from the spec. -/
structure Env (V : Type) where
  format_data_for_subject : List String → List String → List String → List String → V
  average_over_runs : List V → V
  get_voxels_from_region_of_interest : String → String → V
  rearrange_array : V → V → (Nat → Nat → List V)
  calc_rdm : List (RsaDataset V) → String → String → V
  calc_rdm_noise : RsaDataset V → String → String → V → V
  nib_load : List String → V
  ravel_nonzero : V → V → V
  restrict_residuals : V → V → V
  vstack_voxels : V → V
  prec_from_residuals : V → V
  rdm_subset : V → Nat → V
  rdm_compare : V → V → String → V
  entry00 : V → V
  ttest_1samp : List V → Nat → String → TTestResult V
  np_mean : List V → V
  py_round : V → Nat → V
  py_str : V → String
  get_matrices : V → Nat → V
  serialize_rdm : V → String
  serialize_rsa_list : List V → String
  serialize_rsa_report : String → String
  genfromtxt : String → List V
  anova_fit : AnovaFrame V → String → String → List String → V
  uninit : V

variable {V : Type}

/-- Source lines 50-51: the per-subject first-level folder. -/
def folder_path (s : String) : List String :=
  [datapath, "sub-" ++ s, "1st_level_good_bad_Imag"]

/-- Source lines 47-52: the formatted beta values, one entry per subject. -/
def formatted_data (env : Env V) : List V :=
  subjects.map fun s =>
    env.format_data_for_subject (folder_path s) runs selected_conditions all_conditions

/-- Source line 64: average the formatted data over the six runs. -/
def averaged_data (env : Env V) : V :=
  env.average_over_runs (formatted_data env)

/-- Source lines 75-76: the region-of-interest voxel mask. -/
def voxels_from_region (env : Env V) (region : String) : V :=
  env.get_voxels_from_region_of_interest region datapath

/-- Source line 78: mask and rearrange the averaged data into the 3-D region
array (conditions, region voxels, participants). -/
def data_from_region (env : Env V) (region : String) : Nat → Nat → List V :=
  env.rearrange_array (voxels_from_region env region) (averaged_data env)

/-- Source line 87: one rsatoolbox dataset per subject for this region. -/
def region_datasets (env : Env V) (region : String) : List (RsaDataset V) :=
  create_rsa_datasets (data_from_region env region) subjects.length conditions_key

/-- Source lines 96-101: the stimulation subsets (conditions 1-3). -/
def stimulation_data (env : Env V) (region : String) : List (RsaDataset V) :=
  (region_datasets env region).map fun d => subset_obs d stimulation_conditions

/-- Source lines 96-102: the imagery subsets (conditions 4-6). -/
def imagery_data (env : Env V) (region : String) : List (RsaDataset V) :=
  (region_datasets env region).map fun d => subset_obs d imagery_conditions

/-- Source lines 107-108: euclidean RDM of the stimulation data. -/
def stimulation_RDM_euclidean (env : Env V) (region : String) : V :=
  env.calc_rdm (stimulation_data env region) "euclidean" conditions_key

/-- Source lines 109-110: euclidean RDM of the imagery data. -/
def imagery_RDM_euclidean (env : Env V) (region : String) : V :=
  env.calc_rdm (imagery_data env region) "euclidean" conditions_key

/-- Source lines 111-112: euclidean RDM of all six conditions. -/
def all_RDM_euclidean (env : Env V) (region : String) : V :=
  env.calc_rdm (region_datasets env region) "euclidean" conditions_key

/-- Source lines 115-117: the accumulated per-region stimulation RDM list. -/
def stimulation_RDMs_euclidean_all_regions (env : Env V) : List V :=
  regions_of_interest.map fun r => stimulation_RDM_euclidean env r

/-- Source line 127: the per-subject GLM residual file. -/
def residual_path (s : String) : List String :=
  [datapath, "sub-" ++ s, "1st_level_good_bad_Imag", "ResMS.nii"]

/-- Source lines 129-131: load the residual NIfTI file and take its data. -/
def residual_data (env : Env V) (s : String) : V :=
  env.nib_load (residual_path s)

/-- Source lines 133-134: flat indices of the region voxels in the residual
volume. -/
def region_indices_flat (env : Env V) (region s : String) : V :=
  env.ravel_nonzero (voxels_from_region env region) (residual_data env s)

/-- Source lines 136-140: region-restricted residuals with the voxel-index row
stacked on top. -/
def subject_residuals (env : Env V) (region s : String) : V :=
  env.vstack_voxels
    (env.restrict_residuals (residual_data env s) (region_indices_flat env region s))

/-- Source line 142: the noise precision matrix estimated from the residuals. -/
def noise_pres_res (env : Env V) (region s : String) : V :=
  env.prec_from_residuals (subject_residuals env region s)

/-- Source lines 144-145: the per-subject mahalanobis RDM of the stimulation
data, using the estimated noise precision matrix. -/
def stimulation_RDM_mahalanobis (env : Env V) (region s : String) : V :=
  env.calc_rdm_noise ((stimulation_data env region).getD (pyInt s - 1) [])
    conditions_key "mahalanobis" (noise_pres_res env region s)

/-- Source lines 124-147: the mahalanobis RDMs of all ten subjects,
reinitialized for every region. -/
def stimulation_RDMs_mahalanobis_all_subjects (env : Env V) (region : String) : List V :=
  subjects.map fun s => stimulation_RDM_mahalanobis env region s

/-- Source lines 160-166: the per-subject similarity of the stimulation and
imagery RDMs, entry [0][0] of `rsatoolbox.rdm.compare` with method "corr". -/
def similiarity (env : Env V) (region s : String) : V :=
  env.entry00
    (env.rdm_compare
      (env.rdm_subset (stimulation_RDM_euclidean env region) (pyInt s))
      (env.rdm_subset (imagery_RDM_euclidean env region) (pyInt s))
      method)

/-- Source lines 159-166: the ten per-subject similarity values. -/
def similiarities (env : Env V) (region : String) : List V :=
  subjects.map fun s => similiarity env region s

/-- Source line 180: one-sample t-test of the similarities against population
mean 0 with alternative "greater". -/
def significance (env : Env V) (region : String) : TTestResult V :=
  env.ttest_1samp (similiarities env region) 0 "greater"

/-- Source lines 181-183: the formatted significance report string. -/
def significance_report (env : Env V) (region : String) : String :=
  method ++ " = " ++ env.py_str (env.py_round (env.np_mean (similiarities env region)) 3) ++
    " (T = " ++ env.py_str (env.py_round (significance env region).statistic 3) ++
    ", p = " ++ env.py_str (env.py_round (significance env region).pvalue 3) ++
    ", df = " ++ env.py_str (significance env region).df ++ ")"

/-- Source lines 185-186: the per-region printed similarity sentence. -/
def similarity_print_line (env : Env V) (region : String) : String :=
  "The average similarity of stimulation and imagery RDMs across " ++
    toString subjects.length ++ " subjects in " ++ region ++ " is: " ++
    significance_report env region

/-- The events a run of the script produces, in program order.  Reads and
library computations are recorded alongside the observable effects (printed
lines and filesystem mutations). -/
inductive Ev (V : Type) where
  | load_subject_data (subject : String) (path : List String)
  | average_runs
  | get_voxels (region : String)
  | calc_rdm_euclidean (region which : String) (data : List (RsaDataset V)) (descriptor : String)
  | load_nifti (region subject : String) (path : List String)
  | calc_rdm_mahalanobis (region subject : String) (data : RsaDataset V) (noise : V)
  | compare_rdms (region subject mth : String) (a b : V)
  | ttest (region : String) (sims : List V) (popmean : Nat) (alternative : String)
  | print_line (s : String)
  | write_file (path : List String) (content : String)
  | read_file (path : List String)
  | make_dir (path : List String)
  | remove_file (path : List String)
  | fit_anova (frame : AnovaFrame V)

/-- The text file `save_rsa_results` writes (helper module, called at source
lines 196-197). Modelled from the spec together with the read site at source
line 205, which fixes the file name scheme
`<resultpath>/<region>/rsa/stim_imag_rsa_<m>.txt`. -/
def rsa_results_path (region m : String) : List String :=
  [resultpath, region, "rsa", "stim_imag_rsa_" ++ m ++ ".txt"]

/-- The per-subject matrix file `save_rdm_results` writes (helper module,
called at source lines 191-193).  Modelled from the spec: one file per
(region, condition set, distance, subject) under the region's `rdm` folder. -/
def rdm_results_path (region which m s : String) : List String :=
  [resultpath, region, "rdm", which ++ "_" ++ m ++ "_rdm_" ++ s ++ ".txt"]

/-- Source line 221: the anova result directory. -/
def anova_dir : List String := [resultpath, "anova"]

/-- Source line 226: the anova result file. -/
def anova_file : List String := [resultpath, "anova", "similiarities_anova.txt"]

/-- Source line 217: the report string the script prints and writes; it is a
string literal, not a value read from the fitted anova. -/
def anova_report : String := "F(4,36) = 0.458, p = 0.766"

/-- Source line 218: the printed anova sentence. -/
def anova_print_line : String :=
  "Repeated-measures analysis of variance (ANOVA) did not show any significant differences in similiarity measures between regions of interest " ++
    anova_report ++ "."

/-- Source lines 124-147: the events of the per-region mahalanobis block. -/
def mahalanobis_trace (env : Env V) (region : String) : List (Ev V) :=
  subjects.flatMap fun s =>
    [Ev.load_nifti region s (residual_path s),
     Ev.calc_rdm_mahalanobis region s
       ((stimulation_data env region).getD (pyInt s - 1) [])
       (noise_pres_res env region s)]

/-- Source lines 159-166: the events of the per-subject RDM comparisons. -/
def compare_trace (env : Env V) (region : String) : List (Ev V) :=
  subjects.map fun s =>
    Ev.compare_rdms region s method
      (env.rdm_subset (stimulation_RDM_euclidean env region) (pyInt s))
      (env.rdm_subset (imagery_RDM_euclidean env region) (pyInt s))

/-- Source lines 190-193: the per-subject RDM result files. -/
def save_rdm_trace (env : Env V) (region : String) : List (Ev V) :=
  subjects.flatMap fun s =>
    [Ev.write_file (rdm_results_path region "stimulation" "euclidean" s)
       (env.serialize_rdm (env.get_matrices (stimulation_RDM_euclidean env region) (pyInt s - 1))),
     Ev.write_file (rdm_results_path region "imagery" "euclidean" s)
       (env.serialize_rdm (env.get_matrices (imagery_RDM_euclidean env region) (pyInt s - 1))),
     Ev.write_file (rdm_results_path region "all" "euclidean" s)
       (env.serialize_rdm (env.get_matrices (all_RDM_euclidean env region) (pyInt s - 1)))]

/-- Source lines 73-197: one iteration of the region loop, in program order:
mask, euclidean RDMs, mahalanobis block, comparisons, t-test, print, saves. -/
def region_trace (env : Env V) (region : String) : List (Ev V) :=
  [Ev.get_voxels region,
   Ev.calc_rdm_euclidean region "stimulation" (stimulation_data env region) conditions_key,
   Ev.calc_rdm_euclidean region "imagery" (imagery_data env region) conditions_key,
   Ev.calc_rdm_euclidean region "all" (region_datasets env region) conditions_key] ++
  mahalanobis_trace env region ++
  compare_trace env region ++
  [Ev.ttest region (similiarities env region) 0 "greater",
   Ev.print_line (similarity_print_line env region)] ++
  save_rdm_trace env region ++
  [Ev.write_file (rsa_results_path region method) (env.serialize_rsa_list (similiarities env region)),
   Ev.write_file (rsa_results_path region "ttest") (env.serialize_rsa_report (significance_report env region))]

/-- Source lines 47-197: data formatting followed by the region loop. -/
def main_trace (env : Env V) : List (Ev V) :=
  (subjects.map fun s => Ev.load_subject_data s (folder_path s)) ++
  [Ev.average_runs] ++
  regions_of_interest.flatMap fun r => region_trace env r

/-- One filesystem step: writes prepend (most recent first), removes delete. -/
def apply_ev (st : List (List String × String)) : Ev V → List (List String × String)
  | Ev.write_file p c => (p, c) :: st
  | Ev.remove_file p => st.filter fun x => ! (x.1 == p)
  | _ => st

/-- The files on disk after a trace, starting from an empty result tree. -/
def files_state (tr : List (Ev V)) : List (List String × String) :=
  tr.foldl apply_ev []

/-- Read a file from the store (most recent write wins). -/
def read_store (st : List (List String × String)) (p : List String) : String :=
  ((st.find? fun x => x.1 == p).map Prod.snd).getD ""

/-- Source lines 205-206: the text re-read for one region in the anova
section, namely whatever the region loop left in that region's
`stim_imag_rsa_corr.txt`. -/
def rsa_corr_content (env : Env V) (region : String) : String :=
  read_store (files_state (main_trace env)) (rsa_results_path region method)

/-- Source line 206: parse the re-read file with `np.genfromtxt`. -/
def region_similiarity_values (env : Env V) (region : String) : List V :=
  env.genfromtxt (rsa_corr_content env region)

/-- Numpy slice assignment `arr[start:start+len(src)] = src` (exact when
`src` has the expected length). -/
def slice_set (arr : List V) (start : Nat) (src : List V) : List V :=
  arr.take start ++ src ++ arr.drop (start + src.length)

/-- Source lines 203-207: fill the 50-slot array with each region's parsed
values minus their final element. -/
def all_similiarity_values (env : Env V) : List V :=
  regions_of_interest.enum.foldl
    (fun acc p =>
      slice_set acc (p.1 * subjects.length) (region_similiarity_values env p.2).dropLast)
    (List.replicate (subjects.length * regions_of_interest.length) env.uninit)

/-- Source lines 209-211: the dataframe for the repeated-measures anova. -/
def similiarity_data (env : Env V) : AnovaFrame V where
  subject_col := (List.range 5).flatMap fun _ => List.range' 1 10
  rois_col := [1, 2, 3, 4, 5].flatMap fun r => List.replicate 10 r
  similiarity_col := all_similiarity_values env

/-- Source line 215: the fitted repeated-measures anova result object. -/
def anova_results (env : Env V) : V :=
  env.anova_fit (similiarity_data env) "Similiarity" "Subject" ["ROIs"]

/-- Source lines 199-231: the anova section's events: re-read the per-region
files, fit the anova, print the (hard-coded) report, prepare the directory
and write the report file. -/
def anova_trace (env : Env V) : List (Ev V) :=
  (regions_of_interest.map fun r => Ev.read_file (rsa_results_path r method)) ++
  [Ev.fit_anova (similiarity_data env),
   Ev.print_line anova_print_line,
   Ev.make_dir anova_dir,
   Ev.remove_file anova_file,
   Ev.write_file anova_file anova_report]

/-- The whole script: source lines 45-231 in program order. -/
def run_trace (env : Env V) : List (Ev V) :=
  main_trace env ++ anova_trace env

/-- Source lines 73-197 with the mahalanobis block (lines 121-147) removed;
the comparison program for the refinement claim. -/
def region_trace_no_mahalanobis (env : Env V) (region : String) : List (Ev V) :=
  [Ev.get_voxels region,
   Ev.calc_rdm_euclidean region "stimulation" (stimulation_data env region) conditions_key,
   Ev.calc_rdm_euclidean region "imagery" (imagery_data env region) conditions_key,
   Ev.calc_rdm_euclidean region "all" (region_datasets env region) conditions_key] ++
  compare_trace env region ++
  [Ev.ttest region (similiarities env region) 0 "greater",
   Ev.print_line (similarity_print_line env region)] ++
  save_rdm_trace env region ++
  [Ev.write_file (rsa_results_path region method) (env.serialize_rsa_list (similiarities env region)),
   Ev.write_file (rsa_results_path region "ttest") (env.serialize_rsa_report (significance_report env region))]

/-- The whole script with the mahalanobis block removed. -/
def run_trace_no_mahalanobis (env : Env V) : List (Ev V) :=
  ((subjects.map fun s => Ev.load_subject_data s (folder_path s)) ++
   [Ev.average_runs] ++
   regions_of_interest.flatMap fun r => region_trace_no_mahalanobis env r) ++
  anova_trace env

/-- Whether an event is externally observable: a printed line or a
filesystem mutation. -/
def observable : Ev V → Bool
  | Ev.print_line _ => true
  | Ev.write_file _ _ => true
  | Ev.make_dir _ => true
  | Ev.remove_file _ => true
  | _ => false

/-- The observable behaviour of a run: its prints and filesystem mutations,
in order. -/
def observables (tr : List (Ev V)) : List (Ev V) :=
  tr.filter observable

/-- The shape of an event with the opaque library values stripped: only the
constructor and its region / subject / method / path strings remain.  The
shape of a run is independent of the input data. -/
inductive Tag where
  | load_subject (s : String)
  | average
  | voxels (region : String)
  | rdm_calc (region : String)
  | nifti (region subject : String)
  | compare_t (region mth : String)
  | ttest_t (region : String)
  | print_t
  | write_t (path : List String)
  | read_t (path : List String)
  | mkdir_t (path : List String)
  | remove_t (path : List String)
  | anova_t

/-- Strip an event to its shape. -/
def tag : Ev V → Tag
  | Ev.load_subject_data s _ => Tag.load_subject s
  | Ev.average_runs => Tag.average
  | Ev.get_voxels region => Tag.voxels region
  | Ev.calc_rdm_euclidean region _ _ _ => Tag.rdm_calc region
  | Ev.load_nifti region s _ => Tag.nifti region s
  | Ev.calc_rdm_mahalanobis region _ _ _ => Tag.rdm_calc region
  | Ev.compare_rdms region _ mth _ _ => Tag.compare_t region mth
  | Ev.ttest region _ _ _ => Tag.ttest_t region
  | Ev.print_line _ => Tag.print_t
  | Ev.write_file p _ => Tag.write_t p
  | Ev.read_file p => Tag.read_t p
  | Ev.make_dir p => Tag.mkdir_t p
  | Ev.remove_file p => Tag.remove_t p
  | Ev.fit_anova _ => Tag.anova_t

/-- Tag predicate: a subject-data load. -/
def Tag.is_load : Tag → Bool
  | Tag.load_subject _ => true
  | _ => false

/-- Tag predicate: the averaging step. -/
def Tag.is_average : Tag → Bool
  | Tag.average => true
  | _ => false

/-- Tag predicate: an RDM computation (euclidean or mahalanobis) for `r`. -/
def Tag.is_rdm (r : String) : Tag → Bool
  | Tag.rdm_calc region => region == r
  | _ => false

/-- Tag predicate: an RDM comparison for `r`. -/
def Tag.is_compare (r : String) : Tag → Bool
  | Tag.compare_t region _ => region == r
  | _ => false

/-- Tag predicate: the significance test for `r`. -/
def Tag.is_ttest (r : String) : Tag → Bool
  | Tag.ttest_t region => region == r
  | _ => false

/-- Tag predicate: a result file written under region `r`. -/
def Tag.is_write (r : String) : Tag → Bool
  | Tag.write_t p => p.getD 1 "" == r
  | _ => false

/-- Check that in `l` every `p`-element comes strictly before every
`q`-element: after the first `q`-element no `p`-element occurs. -/
def sepB {α : Type} (p q : α → Bool) (l : List α) : Bool :=
  (l.dropWhile fun a => ! q a).all fun a => ! p a

/-- Every position satisfying `p` comes strictly before every position
satisfying `q`. -/
def EventsBefore {α : Type} (p q : α → Bool) (l : List α) : Prop :=
  ∀ i j, (hi : i < l.length) → (hj : j < l.length) →
    p (l.get ⟨i, hi⟩) = true → q (l.get ⟨j, hj⟩) = true → i < j

/-- A concrete trivial instantiation of the opaque collaborators, used to
evaluate the embedding on closed inputs. -/
def env_base : Env Nat where
  format_data_for_subject := fun _ _ _ _ => 0
  average_over_runs := fun _ => 0
  get_voxels_from_region_of_interest := fun _ _ => 0
  rearrange_array := fun _ _ _ _ => [0]
  calc_rdm := fun _ _ _ => 0
  calc_rdm_noise := fun _ _ _ _ => 0
  nib_load := fun _ => 0
  ravel_nonzero := fun _ _ => 0
  restrict_residuals := fun _ _ => 0
  vstack_voxels := fun _ => 0
  prec_from_residuals := fun _ => 0
  rdm_subset := fun _ _ => 0
  rdm_compare := fun _ _ _ => 0
  entry00 := fun _ => 0
  ttest_1samp := fun _ _ _ => ⟨0, 0, 0⟩
  np_mean := fun _ => 0
  py_round := fun _ _ => 0
  py_str := fun _ => "0"
  get_matrices := fun _ _ => 0
  serialize_rdm := fun _ => "rdm"
  serialize_rsa_list := fun _ => "vals"
  serialize_rsa_report := fun s => s
  genfromtxt := fun _ => List.replicate 11 0
  anova_fit := fun _ _ _ _ => 0
  uninit := 0

/-- `env_base` with a different fitted-anova result object. -/
def env_alt : Env Nat := { env_base with anova_fit := fun _ _ _ _ => 1 }

/-- The shape of every run of the script, as a closed literal: the tag list
of `run_trace env` for every `env` (proved below by definitional equality). -/
def trace_skeleton : List Tag :=
  [Tag.load_subject "001",
   Tag.load_subject "002",
   Tag.load_subject "003",
   Tag.load_subject "004",
   Tag.load_subject "005",
   Tag.load_subject "006",
   Tag.load_subject "007",
   Tag.load_subject "008",
   Tag.load_subject "009",
   Tag.load_subject "010",
   Tag.average,
   Tag.voxels "rPSC_2",
   Tag.rdm_calc "rPSC_2",
   Tag.rdm_calc "rPSC_2",
   Tag.rdm_calc "rPSC_2",
   Tag.nifti "rPSC_2" "001",
   Tag.rdm_calc "rPSC_2",
   Tag.nifti "rPSC_2" "002",
   Tag.rdm_calc "rPSC_2",
   Tag.nifti "rPSC_2" "003",
   Tag.rdm_calc "rPSC_2",
   Tag.nifti "rPSC_2" "004",
   Tag.rdm_calc "rPSC_2",
   Tag.nifti "rPSC_2" "005",
   Tag.rdm_calc "rPSC_2",
   Tag.nifti "rPSC_2" "006",
   Tag.rdm_calc "rPSC_2",
   Tag.nifti "rPSC_2" "007",
   Tag.rdm_calc "rPSC_2",
   Tag.nifti "rPSC_2" "008",
   Tag.rdm_calc "rPSC_2",
   Tag.nifti "rPSC_2" "009",
   Tag.rdm_calc "rPSC_2",
   Tag.nifti "rPSC_2" "010",
   Tag.rdm_calc "rPSC_2",
   Tag.compare_t "rPSC_2" "corr",
   Tag.compare_t "rPSC_2" "corr",
   Tag.compare_t "rPSC_2" "corr",
   Tag.compare_t "rPSC_2" "corr",
   Tag.compare_t "rPSC_2" "corr",
   Tag.compare_t "rPSC_2" "corr",
   Tag.compare_t "rPSC_2" "corr",
   Tag.compare_t "rPSC_2" "corr",
   Tag.compare_t "rPSC_2" "corr",
   Tag.compare_t "rPSC_2" "corr",
   Tag.ttest_t "rPSC_2",
   Tag.print_t,
   Tag.write_t ["../analysis/", "rPSC_2", "rdm", "stimulation_euclidean_rdm_001.txt"],
   Tag.write_t ["../analysis/", "rPSC_2", "rdm", "imagery_euclidean_rdm_001.txt"],
   Tag.write_t ["../analysis/", "rPSC_2", "rdm", "all_euclidean_rdm_001.txt"],
   Tag.write_t ["../analysis/", "rPSC_2", "rdm", "stimulation_euclidean_rdm_002.txt"],
   Tag.write_t ["../analysis/", "rPSC_2", "rdm", "imagery_euclidean_rdm_002.txt"],
   Tag.write_t ["../analysis/", "rPSC_2", "rdm", "all_euclidean_rdm_002.txt"],
   Tag.write_t ["../analysis/", "rPSC_2", "rdm", "stimulation_euclidean_rdm_003.txt"],
   Tag.write_t ["../analysis/", "rPSC_2", "rdm", "imagery_euclidean_rdm_003.txt"],
   Tag.write_t ["../analysis/", "rPSC_2", "rdm", "all_euclidean_rdm_003.txt"],
   Tag.write_t ["../analysis/", "rPSC_2", "rdm", "stimulation_euclidean_rdm_004.txt"],
   Tag.write_t ["../analysis/", "rPSC_2", "rdm", "imagery_euclidean_rdm_004.txt"],
   Tag.write_t ["../analysis/", "rPSC_2", "rdm", "all_euclidean_rdm_004.txt"],
   Tag.write_t ["../analysis/", "rPSC_2", "rdm", "stimulation_euclidean_rdm_005.txt"],
   Tag.write_t ["../analysis/", "rPSC_2", "rdm", "imagery_euclidean_rdm_005.txt"],
   Tag.write_t ["../analysis/", "rPSC_2", "rdm", "all_euclidean_rdm_005.txt"],
   Tag.write_t ["../analysis/", "rPSC_2", "rdm", "stimulation_euclidean_rdm_006.txt"],
   Tag.write_t ["../analysis/", "rPSC_2", "rdm", "imagery_euclidean_rdm_006.txt"],
   Tag.write_t ["../analysis/", "rPSC_2", "rdm", "all_euclidean_rdm_006.txt"],
   Tag.write_t ["../analysis/", "rPSC_2", "rdm", "stimulation_euclidean_rdm_007.txt"],
   Tag.write_t ["../analysis/", "rPSC_2", "rdm", "imagery_euclidean_rdm_007.txt"],
   Tag.write_t ["../analysis/", "rPSC_2", "rdm", "all_euclidean_rdm_007.txt"],
   Tag.write_t ["../analysis/", "rPSC_2", "rdm", "stimulation_euclidean_rdm_008.txt"],
   Tag.write_t ["../analysis/", "rPSC_2", "rdm", "imagery_euclidean_rdm_008.txt"],
   Tag.write_t ["../analysis/", "rPSC_2", "rdm", "all_euclidean_rdm_008.txt"],
   Tag.write_t ["../analysis/", "rPSC_2", "rdm", "stimulation_euclidean_rdm_009.txt"],
   Tag.write_t ["../analysis/", "rPSC_2", "rdm", "imagery_euclidean_rdm_009.txt"],
   Tag.write_t ["../analysis/", "rPSC_2", "rdm", "all_euclidean_rdm_009.txt"],
   Tag.write_t ["../analysis/", "rPSC_2", "rdm", "stimulation_euclidean_rdm_010.txt"],
   Tag.write_t ["../analysis/", "rPSC_2", "rdm", "imagery_euclidean_rdm_010.txt"],
   Tag.write_t ["../analysis/", "rPSC_2", "rdm", "all_euclidean_rdm_010.txt"],
   Tag.write_t ["../analysis/", "rPSC_2", "rsa", "stim_imag_rsa_corr.txt"],
   Tag.write_t ["../analysis/", "rPSC_2", "rsa", "stim_imag_rsa_ttest.txt"],
   Tag.voxels "rPSC_1",
   Tag.rdm_calc "rPSC_1",
   Tag.rdm_calc "rPSC_1",
   Tag.rdm_calc "rPSC_1",
   Tag.nifti "rPSC_1" "001",
   Tag.rdm_calc "rPSC_1",
   Tag.nifti "rPSC_1" "002",
   Tag.rdm_calc "rPSC_1",
   Tag.nifti "rPSC_1" "003",
   Tag.rdm_calc "rPSC_1",
   Tag.nifti "rPSC_1" "004",
   Tag.rdm_calc "rPSC_1",
   Tag.nifti "rPSC_1" "005",
   Tag.rdm_calc "rPSC_1",
   Tag.nifti "rPSC_1" "006",
   Tag.rdm_calc "rPSC_1",
   Tag.nifti "rPSC_1" "007",
   Tag.rdm_calc "rPSC_1",
   Tag.nifti "rPSC_1" "008",
   Tag.rdm_calc "rPSC_1",
   Tag.nifti "rPSC_1" "009",
   Tag.rdm_calc "rPSC_1",
   Tag.nifti "rPSC_1" "010",
   Tag.rdm_calc "rPSC_1",
   Tag.compare_t "rPSC_1" "corr",
   Tag.compare_t "rPSC_1" "corr",
   Tag.compare_t "rPSC_1" "corr",
   Tag.compare_t "rPSC_1" "corr",
   Tag.compare_t "rPSC_1" "corr",
   Tag.compare_t "rPSC_1" "corr",
   Tag.compare_t "rPSC_1" "corr",
   Tag.compare_t "rPSC_1" "corr",
   Tag.compare_t "rPSC_1" "corr",
   Tag.compare_t "rPSC_1" "corr",
   Tag.ttest_t "rPSC_1",
   Tag.print_t,
   Tag.write_t ["../analysis/", "rPSC_1", "rdm", "stimulation_euclidean_rdm_001.txt"],
   Tag.write_t ["../analysis/", "rPSC_1", "rdm", "imagery_euclidean_rdm_001.txt"],
   Tag.write_t ["../analysis/", "rPSC_1", "rdm", "all_euclidean_rdm_001.txt"],
   Tag.write_t ["../analysis/", "rPSC_1", "rdm", "stimulation_euclidean_rdm_002.txt"],
   Tag.write_t ["../analysis/", "rPSC_1", "rdm", "imagery_euclidean_rdm_002.txt"],
   Tag.write_t ["../analysis/", "rPSC_1", "rdm", "all_euclidean_rdm_002.txt"],
   Tag.write_t ["../analysis/", "rPSC_1", "rdm", "stimulation_euclidean_rdm_003.txt"],
   Tag.write_t ["../analysis/", "rPSC_1", "rdm", "imagery_euclidean_rdm_003.txt"],
   Tag.write_t ["../analysis/", "rPSC_1", "rdm", "all_euclidean_rdm_003.txt"],
   Tag.write_t ["../analysis/", "rPSC_1", "rdm", "stimulation_euclidean_rdm_004.txt"],
   Tag.write_t ["../analysis/", "rPSC_1", "rdm", "imagery_euclidean_rdm_004.txt"],
   Tag.write_t ["../analysis/", "rPSC_1", "rdm", "all_euclidean_rdm_004.txt"],
   Tag.write_t ["../analysis/", "rPSC_1", "rdm", "stimulation_euclidean_rdm_005.txt"],
   Tag.write_t ["../analysis/", "rPSC_1", "rdm", "imagery_euclidean_rdm_005.txt"],
   Tag.write_t ["../analysis/", "rPSC_1", "rdm", "all_euclidean_rdm_005.txt"],
   Tag.write_t ["../analysis/", "rPSC_1", "rdm", "stimulation_euclidean_rdm_006.txt"],
   Tag.write_t ["../analysis/", "rPSC_1", "rdm", "imagery_euclidean_rdm_006.txt"],
   Tag.write_t ["../analysis/", "rPSC_1", "rdm", "all_euclidean_rdm_006.txt"],
   Tag.write_t ["../analysis/", "rPSC_1", "rdm", "stimulation_euclidean_rdm_007.txt"],
   Tag.write_t ["../analysis/", "rPSC_1", "rdm", "imagery_euclidean_rdm_007.txt"],
   Tag.write_t ["../analysis/", "rPSC_1", "rdm", "all_euclidean_rdm_007.txt"],
   Tag.write_t ["../analysis/", "rPSC_1", "rdm", "stimulation_euclidean_rdm_008.txt"],
   Tag.write_t ["../analysis/", "rPSC_1", "rdm", "imagery_euclidean_rdm_008.txt"],
   Tag.write_t ["../analysis/", "rPSC_1", "rdm", "all_euclidean_rdm_008.txt"],
   Tag.write_t ["../analysis/", "rPSC_1", "rdm", "stimulation_euclidean_rdm_009.txt"],
   Tag.write_t ["../analysis/", "rPSC_1", "rdm", "imagery_euclidean_rdm_009.txt"],
   Tag.write_t ["../analysis/", "rPSC_1", "rdm", "all_euclidean_rdm_009.txt"],
   Tag.write_t ["../analysis/", "rPSC_1", "rdm", "stimulation_euclidean_rdm_010.txt"],
   Tag.write_t ["../analysis/", "rPSC_1", "rdm", "imagery_euclidean_rdm_010.txt"],
   Tag.write_t ["../analysis/", "rPSC_1", "rdm", "all_euclidean_rdm_010.txt"],
   Tag.write_t ["../analysis/", "rPSC_1", "rsa", "stim_imag_rsa_corr.txt"],
   Tag.write_t ["../analysis/", "rPSC_1", "rsa", "stim_imag_rsa_ttest.txt"],
   Tag.voxels "rPSC_3b",
   Tag.rdm_calc "rPSC_3b",
   Tag.rdm_calc "rPSC_3b",
   Tag.rdm_calc "rPSC_3b",
   Tag.nifti "rPSC_3b" "001",
   Tag.rdm_calc "rPSC_3b",
   Tag.nifti "rPSC_3b" "002",
   Tag.rdm_calc "rPSC_3b",
   Tag.nifti "rPSC_3b" "003",
   Tag.rdm_calc "rPSC_3b",
   Tag.nifti "rPSC_3b" "004",
   Tag.rdm_calc "rPSC_3b",
   Tag.nifti "rPSC_3b" "005",
   Tag.rdm_calc "rPSC_3b",
   Tag.nifti "rPSC_3b" "006",
   Tag.rdm_calc "rPSC_3b",
   Tag.nifti "rPSC_3b" "007",
   Tag.rdm_calc "rPSC_3b",
   Tag.nifti "rPSC_3b" "008",
   Tag.rdm_calc "rPSC_3b",
   Tag.nifti "rPSC_3b" "009",
   Tag.rdm_calc "rPSC_3b",
   Tag.nifti "rPSC_3b" "010",
   Tag.rdm_calc "rPSC_3b",
   Tag.compare_t "rPSC_3b" "corr",
   Tag.compare_t "rPSC_3b" "corr",
   Tag.compare_t "rPSC_3b" "corr",
   Tag.compare_t "rPSC_3b" "corr",
   Tag.compare_t "rPSC_3b" "corr",
   Tag.compare_t "rPSC_3b" "corr",
   Tag.compare_t "rPSC_3b" "corr",
   Tag.compare_t "rPSC_3b" "corr",
   Tag.compare_t "rPSC_3b" "corr",
   Tag.compare_t "rPSC_3b" "corr",
   Tag.ttest_t "rPSC_3b",
   Tag.print_t,
   Tag.write_t ["../analysis/", "rPSC_3b", "rdm", "stimulation_euclidean_rdm_001.txt"],
   Tag.write_t ["../analysis/", "rPSC_3b", "rdm", "imagery_euclidean_rdm_001.txt"],
   Tag.write_t ["../analysis/", "rPSC_3b", "rdm", "all_euclidean_rdm_001.txt"],
   Tag.write_t ["../analysis/", "rPSC_3b", "rdm", "stimulation_euclidean_rdm_002.txt"],
   Tag.write_t ["../analysis/", "rPSC_3b", "rdm", "imagery_euclidean_rdm_002.txt"],
   Tag.write_t ["../analysis/", "rPSC_3b", "rdm", "all_euclidean_rdm_002.txt"],
   Tag.write_t ["../analysis/", "rPSC_3b", "rdm", "stimulation_euclidean_rdm_003.txt"],
   Tag.write_t ["../analysis/", "rPSC_3b", "rdm", "imagery_euclidean_rdm_003.txt"],
   Tag.write_t ["../analysis/", "rPSC_3b", "rdm", "all_euclidean_rdm_003.txt"],
   Tag.write_t ["../analysis/", "rPSC_3b", "rdm", "stimulation_euclidean_rdm_004.txt"],
   Tag.write_t ["../analysis/", "rPSC_3b", "rdm", "imagery_euclidean_rdm_004.txt"],
   Tag.write_t ["../analysis/", "rPSC_3b", "rdm", "all_euclidean_rdm_004.txt"],
   Tag.write_t ["../analysis/", "rPSC_3b", "rdm", "stimulation_euclidean_rdm_005.txt"],
   Tag.write_t ["../analysis/", "rPSC_3b", "rdm", "imagery_euclidean_rdm_005.txt"],
   Tag.write_t ["../analysis/", "rPSC_3b", "rdm", "all_euclidean_rdm_005.txt"],
   Tag.write_t ["../analysis/", "rPSC_3b", "rdm", "stimulation_euclidean_rdm_006.txt"],
   Tag.write_t ["../analysis/", "rPSC_3b", "rdm", "imagery_euclidean_rdm_006.txt"],
   Tag.write_t ["../analysis/", "rPSC_3b", "rdm", "all_euclidean_rdm_006.txt"],
   Tag.write_t ["../analysis/", "rPSC_3b", "rdm", "stimulation_euclidean_rdm_007.txt"],
   Tag.write_t ["../analysis/", "rPSC_3b", "rdm", "imagery_euclidean_rdm_007.txt"],
   Tag.write_t ["../analysis/", "rPSC_3b", "rdm", "all_euclidean_rdm_007.txt"],
   Tag.write_t ["../analysis/", "rPSC_3b", "rdm", "stimulation_euclidean_rdm_008.txt"],
   Tag.write_t ["../analysis/", "rPSC_3b", "rdm", "imagery_euclidean_rdm_008.txt"],
   Tag.write_t ["../analysis/", "rPSC_3b", "rdm", "all_euclidean_rdm_008.txt"],
   Tag.write_t ["../analysis/", "rPSC_3b", "rdm", "stimulation_euclidean_rdm_009.txt"],
   Tag.write_t ["../analysis/", "rPSC_3b", "rdm", "imagery_euclidean_rdm_009.txt"],
   Tag.write_t ["../analysis/", "rPSC_3b", "rdm", "all_euclidean_rdm_009.txt"],
   Tag.write_t ["../analysis/", "rPSC_3b", "rdm", "stimulation_euclidean_rdm_010.txt"],
   Tag.write_t ["../analysis/", "rPSC_3b", "rdm", "imagery_euclidean_rdm_010.txt"],
   Tag.write_t ["../analysis/", "rPSC_3b", "rdm", "all_euclidean_rdm_010.txt"],
   Tag.write_t ["../analysis/", "rPSC_3b", "rsa", "stim_imag_rsa_corr.txt"],
   Tag.write_t ["../analysis/", "rPSC_3b", "rsa", "stim_imag_rsa_ttest.txt"],
   Tag.voxels "rSII_TR50_right",
   Tag.rdm_calc "rSII_TR50_right",
   Tag.rdm_calc "rSII_TR50_right",
   Tag.rdm_calc "rSII_TR50_right",
   Tag.nifti "rSII_TR50_right" "001",
   Tag.rdm_calc "rSII_TR50_right",
   Tag.nifti "rSII_TR50_right" "002",
   Tag.rdm_calc "rSII_TR50_right",
   Tag.nifti "rSII_TR50_right" "003",
   Tag.rdm_calc "rSII_TR50_right",
   Tag.nifti "rSII_TR50_right" "004",
   Tag.rdm_calc "rSII_TR50_right",
   Tag.nifti "rSII_TR50_right" "005",
   Tag.rdm_calc "rSII_TR50_right",
   Tag.nifti "rSII_TR50_right" "006",
   Tag.rdm_calc "rSII_TR50_right",
   Tag.nifti "rSII_TR50_right" "007",
   Tag.rdm_calc "rSII_TR50_right",
   Tag.nifti "rSII_TR50_right" "008",
   Tag.rdm_calc "rSII_TR50_right",
   Tag.nifti "rSII_TR50_right" "009",
   Tag.rdm_calc "rSII_TR50_right",
   Tag.nifti "rSII_TR50_right" "010",
   Tag.rdm_calc "rSII_TR50_right",
   Tag.compare_t "rSII_TR50_right" "corr",
   Tag.compare_t "rSII_TR50_right" "corr",
   Tag.compare_t "rSII_TR50_right" "corr",
   Tag.compare_t "rSII_TR50_right" "corr",
   Tag.compare_t "rSII_TR50_right" "corr",
   Tag.compare_t "rSII_TR50_right" "corr",
   Tag.compare_t "rSII_TR50_right" "corr",
   Tag.compare_t "rSII_TR50_right" "corr",
   Tag.compare_t "rSII_TR50_right" "corr",
   Tag.compare_t "rSII_TR50_right" "corr",
   Tag.ttest_t "rSII_TR50_right",
   Tag.print_t,
   Tag.write_t ["../analysis/", "rSII_TR50_right", "rdm", "stimulation_euclidean_rdm_001.txt"],
   Tag.write_t ["../analysis/", "rSII_TR50_right", "rdm", "imagery_euclidean_rdm_001.txt"],
   Tag.write_t ["../analysis/", "rSII_TR50_right", "rdm", "all_euclidean_rdm_001.txt"],
   Tag.write_t ["../analysis/", "rSII_TR50_right", "rdm", "stimulation_euclidean_rdm_002.txt"],
   Tag.write_t ["../analysis/", "rSII_TR50_right", "rdm", "imagery_euclidean_rdm_002.txt"],
   Tag.write_t ["../analysis/", "rSII_TR50_right", "rdm", "all_euclidean_rdm_002.txt"],
   Tag.write_t ["../analysis/", "rSII_TR50_right", "rdm", "stimulation_euclidean_rdm_003.txt"],
   Tag.write_t ["../analysis/", "rSII_TR50_right", "rdm", "imagery_euclidean_rdm_003.txt"],
   Tag.write_t ["../analysis/", "rSII_TR50_right", "rdm", "all_euclidean_rdm_003.txt"],
   Tag.write_t ["../analysis/", "rSII_TR50_right", "rdm", "stimulation_euclidean_rdm_004.txt"],
   Tag.write_t ["../analysis/", "rSII_TR50_right", "rdm", "imagery_euclidean_rdm_004.txt"],
   Tag.write_t ["../analysis/", "rSII_TR50_right", "rdm", "all_euclidean_rdm_004.txt"],
   Tag.write_t ["../analysis/", "rSII_TR50_right", "rdm", "stimulation_euclidean_rdm_005.txt"],
   Tag.write_t ["../analysis/", "rSII_TR50_right", "rdm", "imagery_euclidean_rdm_005.txt"],
   Tag.write_t ["../analysis/", "rSII_TR50_right", "rdm", "all_euclidean_rdm_005.txt"],
   Tag.write_t ["../analysis/", "rSII_TR50_right", "rdm", "stimulation_euclidean_rdm_006.txt"],
   Tag.write_t ["../analysis/", "rSII_TR50_right", "rdm", "imagery_euclidean_rdm_006.txt"],
   Tag.write_t ["../analysis/", "rSII_TR50_right", "rdm", "all_euclidean_rdm_006.txt"],
   Tag.write_t ["../analysis/", "rSII_TR50_right", "rdm", "stimulation_euclidean_rdm_007.txt"],
   Tag.write_t ["../analysis/", "rSII_TR50_right", "rdm", "imagery_euclidean_rdm_007.txt"],
   Tag.write_t ["../analysis/", "rSII_TR50_right", "rdm", "all_euclidean_rdm_007.txt"],
   Tag.write_t ["../analysis/", "rSII_TR50_right", "rdm", "stimulation_euclidean_rdm_008.txt"],
   Tag.write_t ["../analysis/", "rSII_TR50_right", "rdm", "imagery_euclidean_rdm_008.txt"],
   Tag.write_t ["../analysis/", "rSII_TR50_right", "rdm", "all_euclidean_rdm_008.txt"],
   Tag.write_t ["../analysis/", "rSII_TR50_right", "rdm", "stimulation_euclidean_rdm_009.txt"],
   Tag.write_t ["../analysis/", "rSII_TR50_right", "rdm", "imagery_euclidean_rdm_009.txt"],
   Tag.write_t ["../analysis/", "rSII_TR50_right", "rdm", "all_euclidean_rdm_009.txt"],
   Tag.write_t ["../analysis/", "rSII_TR50_right", "rdm", "stimulation_euclidean_rdm_010.txt"],
   Tag.write_t ["../analysis/", "rSII_TR50_right", "rdm", "imagery_euclidean_rdm_010.txt"],
   Tag.write_t ["../analysis/", "rSII_TR50_right", "rdm", "all_euclidean_rdm_010.txt"],
   Tag.write_t ["../analysis/", "rSII_TR50_right", "rsa", "stim_imag_rsa_corr.txt"],
   Tag.write_t ["../analysis/", "rSII_TR50_right", "rsa", "stim_imag_rsa_ttest.txt"],
   Tag.voxels "rSII_TR50_left",
   Tag.rdm_calc "rSII_TR50_left",
   Tag.rdm_calc "rSII_TR50_left",
   Tag.rdm_calc "rSII_TR50_left",
   Tag.nifti "rSII_TR50_left" "001",
   Tag.rdm_calc "rSII_TR50_left",
   Tag.nifti "rSII_TR50_left" "002",
   Tag.rdm_calc "rSII_TR50_left",
   Tag.nifti "rSII_TR50_left" "003",
   Tag.rdm_calc "rSII_TR50_left",
   Tag.nifti "rSII_TR50_left" "004",
   Tag.rdm_calc "rSII_TR50_left",
   Tag.nifti "rSII_TR50_left" "005",
   Tag.rdm_calc "rSII_TR50_left",
   Tag.nifti "rSII_TR50_left" "006",
   Tag.rdm_calc "rSII_TR50_left",
   Tag.nifti "rSII_TR50_left" "007",
   Tag.rdm_calc "rSII_TR50_left",
   Tag.nifti "rSII_TR50_left" "008",
   Tag.rdm_calc "rSII_TR50_left",
   Tag.nifti "rSII_TR50_left" "009",
   Tag.rdm_calc "rSII_TR50_left",
   Tag.nifti "rSII_TR50_left" "010",
   Tag.rdm_calc "rSII_TR50_left",
   Tag.compare_t "rSII_TR50_left" "corr",
   Tag.compare_t "rSII_TR50_left" "corr",
   Tag.compare_t "rSII_TR50_left" "corr",
   Tag.compare_t "rSII_TR50_left" "corr",
   Tag.compare_t "rSII_TR50_left" "corr",
   Tag.compare_t "rSII_TR50_left" "corr",
   Tag.compare_t "rSII_TR50_left" "corr",
   Tag.compare_t "rSII_TR50_left" "corr",
   Tag.compare_t "rSII_TR50_left" "corr",
   Tag.compare_t "rSII_TR50_left" "corr",
   Tag.ttest_t "rSII_TR50_left",
   Tag.print_t,
   Tag.write_t ["../analysis/", "rSII_TR50_left", "rdm", "stimulation_euclidean_rdm_001.txt"],
   Tag.write_t ["../analysis/", "rSII_TR50_left", "rdm", "imagery_euclidean_rdm_001.txt"],
   Tag.write_t ["../analysis/", "rSII_TR50_left", "rdm", "all_euclidean_rdm_001.txt"],
   Tag.write_t ["../analysis/", "rSII_TR50_left", "rdm", "stimulation_euclidean_rdm_002.txt"],
   Tag.write_t ["../analysis/", "rSII_TR50_left", "rdm", "imagery_euclidean_rdm_002.txt"],
   Tag.write_t ["../analysis/", "rSII_TR50_left", "rdm", "all_euclidean_rdm_002.txt"],
   Tag.write_t ["../analysis/", "rSII_TR50_left", "rdm", "stimulation_euclidean_rdm_003.txt"],
   Tag.write_t ["../analysis/", "rSII_TR50_left", "rdm", "imagery_euclidean_rdm_003.txt"],
   Tag.write_t ["../analysis/", "rSII_TR50_left", "rdm", "all_euclidean_rdm_003.txt"],
   Tag.write_t ["../analysis/", "rSII_TR50_left", "rdm", "stimulation_euclidean_rdm_004.txt"],
   Tag.write_t ["../analysis/", "rSII_TR50_left", "rdm", "imagery_euclidean_rdm_004.txt"],
   Tag.write_t ["../analysis/", "rSII_TR50_left", "rdm", "all_euclidean_rdm_004.txt"],
   Tag.write_t ["../analysis/", "rSII_TR50_left", "rdm", "stimulation_euclidean_rdm_005.txt"],
   Tag.write_t ["../analysis/", "rSII_TR50_left", "rdm", "imagery_euclidean_rdm_005.txt"],
   Tag.write_t ["../analysis/", "rSII_TR50_left", "rdm", "all_euclidean_rdm_005.txt"],
   Tag.write_t ["../analysis/", "rSII_TR50_left", "rdm", "stimulation_euclidean_rdm_006.txt"],
   Tag.write_t ["../analysis/", "rSII_TR50_left", "rdm", "imagery_euclidean_rdm_006.txt"],
   Tag.write_t ["../analysis/", "rSII_TR50_left", "rdm", "all_euclidean_rdm_006.txt"],
   Tag.write_t ["../analysis/", "rSII_TR50_left", "rdm", "stimulation_euclidean_rdm_007.txt"],
   Tag.write_t ["../analysis/", "rSII_TR50_left", "rdm", "imagery_euclidean_rdm_007.txt"],
   Tag.write_t ["../analysis/", "rSII_TR50_left", "rdm", "all_euclidean_rdm_007.txt"],
   Tag.write_t ["../analysis/", "rSII_TR50_left", "rdm", "stimulation_euclidean_rdm_008.txt"],
   Tag.write_t ["../analysis/", "rSII_TR50_left", "rdm", "imagery_euclidean_rdm_008.txt"],
   Tag.write_t ["../analysis/", "rSII_TR50_left", "rdm", "all_euclidean_rdm_008.txt"],
   Tag.write_t ["../analysis/", "rSII_TR50_left", "rdm", "stimulation_euclidean_rdm_009.txt"],
   Tag.write_t ["../analysis/", "rSII_TR50_left", "rdm", "imagery_euclidean_rdm_009.txt"],
   Tag.write_t ["../analysis/", "rSII_TR50_left", "rdm", "all_euclidean_rdm_009.txt"],
   Tag.write_t ["../analysis/", "rSII_TR50_left", "rdm", "stimulation_euclidean_rdm_010.txt"],
   Tag.write_t ["../analysis/", "rSII_TR50_left", "rdm", "imagery_euclidean_rdm_010.txt"],
   Tag.write_t ["../analysis/", "rSII_TR50_left", "rdm", "all_euclidean_rdm_010.txt"],
   Tag.write_t ["../analysis/", "rSII_TR50_left", "rsa", "stim_imag_rsa_corr.txt"],
   Tag.write_t ["../analysis/", "rSII_TR50_left", "rsa", "stim_imag_rsa_ttest.txt"],
   Tag.read_t ["../analysis/", "rPSC_2", "rsa", "stim_imag_rsa_corr.txt"],
   Tag.read_t ["../analysis/", "rPSC_1", "rsa", "stim_imag_rsa_corr.txt"],
   Tag.read_t ["../analysis/", "rPSC_3b", "rsa", "stim_imag_rsa_corr.txt"],
   Tag.read_t ["../analysis/", "rSII_TR50_right", "rsa", "stim_imag_rsa_corr.txt"],
   Tag.read_t ["../analysis/", "rSII_TR50_left", "rsa", "stim_imag_rsa_corr.txt"],
   Tag.anova_t,
   Tag.print_t,
   Tag.mkdir_t ["../analysis/", "anova"],
   Tag.remove_t ["../analysis/", "anova", "similiarities_anova.txt"],
   Tag.write_t ["../analysis/", "anova", "similiarities_anova.txt"]]

/-- Bound membership soundness for the separation check: if `sepB p q l`
holds then every `p`-position in `l` is strictly before every `q`-position. -/
theorem sepB_sound {α : Type} {p q : α → Bool} :
    ∀ {l : List α}, sepB p q l = true → EventsBefore p q l := by
  intro l
  induction l with
  | nil =>
    intro _ i j hi
    exact absurd hi (Nat.not_lt_zero i)
  | cons a t ih =>
    intro h i j hi hj hp hq
    by_cases hqa : q a = true
    · exfalso
      have hall : ((a :: t).all fun x => ! p x) = true := by
        simpa [sepB, List.dropWhile_cons, hqa] using h
      have hmem := List.all_eq_true.mp hall ((a :: t).get ⟨i, hi⟩) (List.get_mem _ i hi)
      rw [hp] at hmem
      simp at hmem
    · have hqa2 : q a = false := by
        cases hqb : q a
        · rfl
        · exact absurd hqb hqa
      have h2 : sepB p q t = true := by
        simpa [sepB, List.dropWhile_cons, hqa2] using h
      cases j with
      | zero => exact absurd hq hqa
      | succ j2 =>
        cases i with
        | zero => exact Nat.succ_pos j2
        | succ i2 =>
          exact Nat.succ_lt_succ
            (ih h2 i2 j2 (Nat.lt_of_succ_lt_succ hi) (Nat.lt_of_succ_lt_succ hj) hp hq)

/-- Temporal separation transfers along `List.map`. -/
theorem EventsBefore.of_map {α β : Type} {f : α → β} {p q : β → Bool} {l : List α}
    (h : EventsBefore p q (l.map f)) :
    EventsBefore (fun a => p (f a)) (fun a => q (f a)) l := by
  intro i j hi hj hp hq
  have hi2 : i < (l.map f).length := by simpa using hi
  have hj2 : j < (l.map f).length := by simpa using hj
  refine h i j hi2 hj2 ?_ ?_
  · rw [List.get_map]; exact hp
  · rw [List.get_map]; exact hq

/-- Non-observable events leave the file store unchanged. -/
theorem apply_ev_of_not_observable {V : Type} (st : List (List String × String)) (e : Ev V)
    (h : observable e = false) : apply_ev st e = st := by
  cases e <;> first | rfl | (simp [observable] at h)

/-- The files on disk are determined by the observable sub-trace. -/
theorem files_state_eq_observables {V : Type} (tr : List (Ev V)) :
    files_state tr = files_state (observables tr) := by
  have aux : ∀ (t2 : List (Ev V)) (st : List (List String × String)),
      t2.foldl apply_ev st = (t2.filter observable).foldl apply_ev st := by
    intro t2
    induction t2 with
    | nil => intro st; rfl
    | cons e t ih =>
      intro st
      cases hob : observable e
      · rw [List.foldl_cons, List.filter_cons, hob, apply_ev_of_not_observable st e hob]
        exact ih st
      · rw [List.foldl_cons, List.filter_cons, hob]
        simp only [if_true]
        rw [List.foldl_cons]
        exact ih (apply_ev st e)
  exact aux tr []

/-- The shape of the run trace is the same closed tag list for every
environment: the control flow of the script does not depend on the data. -/
theorem run_tags_eq {V : Type} (env : Env V) : (run_trace env).map tag = trace_skeleton := rfl

/-- After any run, the anova result file holds exactly the report string. -/
theorem store_run_anova_file {V : Type} (env : Env V) :
    read_store (files_state (run_trace env)) anova_file = anova_report := rfl

/-- Replacing the fitted-anova library behaviour leaves the whole run trace
unchanged: the fitted result object flows into no later computation. -/
theorem run_trace_anova_fit_update {V : Type} (env : Env V)
    (f : AnovaFrame V → String → String → List String → V) :
    run_trace { env with anova_fit := f } = run_trace env := rfl

/-- Dropping the mahalanobis block changes no print and no file operation. -/
theorem observables_no_mahalanobis {V : Type} (env : Env V) :
    observables (run_trace env) = observables (run_trace_no_mahalanobis env) := rfl

/-- What the anova section re-reads for a region is exactly the serialized
similarity list the region loop wrote for that region. -/
theorem rsa_corr_content_eq {V : Type} (env : Env V) :
    ∀ r ∈ regions_of_interest,
      rsa_corr_content env r = env.serialize_rsa_list (similiarities env r) := by
  intro r hr
  have hc : r = "rPSC_2" ∨ r = "rPSC_1" ∨ r = "rPSC_3b" ∨ r = "rSII_TR50_right" ∨
      r = "rSII_TR50_left" := by
    simpa [regions_of_interest] using hr
  rcases hc with rfl | rfl | rfl | rfl | rfl <;> rfl

/-- Claim C1: the source performs the repeated-measures anova fit (line 215),
but the F and p values it prints and writes to
`analysis/anova/similiarities_anova.txt` do NOT report that fit: two
environments whose anova fits disagree still produce the identical file
content.  This contradicts the claim (and the code's own comments at source
lines 213 and 225), evidencing the hard-coded report at source line 217. -/
theorem anova_file_ignores_fitted_result :
    anova_results env_alt = 1 ∧ anova_results env_base = 0 ∧
    anova_results env_alt ≠ anova_results env_base ∧
    read_store (files_state (run_trace env_alt)) anova_file =
      read_store (files_state (run_trace env_base)) anova_file := by
  refine ⟨rfl, rfl, by decide, ?_⟩
  rw [store_run_anova_file, store_run_anova_file]

/-- Claim C2: for any two runs on any two inputs, the string written to
`analysis/anova/similiarities_anova.txt` is the fixed constant
"F(4,36) = 0.458, p = 0.766", the printed anova sentence is likewise fixed,
and the fitted anova result object influences neither the trace nor any
file: it can be replaced by an arbitrary function without change. -/
theorem anova_output_constant : ∀ (V W : Type) (env : Env V) (env2 : Env W)
    (f : AnovaFrame V → String → String → List String → V),
    read_store (files_state (run_trace env)) anova_file = "F(4,36) = 0.458, p = 0.766" ∧
    read_store (files_state (run_trace env2)) anova_file =
      read_store (files_state (run_trace env)) anova_file ∧
    anova_print_line = "Repeated-measures analysis of variance (ANOVA) did not show any significant differences in similiarity measures between regions of interest F(4,36) = 0.458, p = 0.766." ∧
    run_trace { env with anova_fit := f } = run_trace env ∧
    anova_report = "F(4,36) = 0.458, p = 0.766" := by
  intro V W env env2 f
  refine ⟨(store_run_anova_file env).trans rfl, ?_, rfl, run_trace_anova_fit_update env f, rfl⟩
  rw [store_run_anova_file env, store_run_anova_file env2]

/-- Claim C3: the script analyses exactly the five regions of interest; in
every region the stimulation subsets carry exactly condition labels 1-3 and
the imagery subsets exactly labels 4-6; for every subject the run compares
the stimulation RDM against the imagery RDM; and every comparison in the
whole run belongs to one of the five regions and uses method "corr". -/
theorem five_regions_stim_vs_imagery : ∀ (V : Type) (env : Env V) (r : String),
    r ∈ regions_of_interest →
    regions_of_interest.length = 5 ∧
    stimulation_conditions = ["conditions1", "conditions2", "conditions3"] ∧
    imagery_conditions = ["conditions4", "conditions5", "conditions6"] ∧
    (∀ d ∈ stimulation_data env r, d.map Prod.fst = stimulation_conditions) ∧
    (∀ d ∈ imagery_data env r, d.map Prod.fst = imagery_conditions) ∧
    (∀ s ∈ subjects, Ev.compare_rdms r s method
        (env.rdm_subset (stimulation_RDM_euclidean env r) (pyInt s))
        (env.rdm_subset (imagery_RDM_euclidean env r) (pyInt s)) ∈ run_trace env) ∧
    (∀ (r2 s2 m2 : String) (a b : V), Ev.compare_rdms r2 s2 m2 a b ∈ run_trace env →
        r2 ∈ regions_of_interest ∧ m2 = method) := by
  intro V env r hr
  refine ⟨rfl, rfl, rfl, ?_, ?_, ?_, ?_⟩
  · intro d hd
    obtain ⟨d0, hd0, rfl⟩ := List.mem_map.mp hd
    obtain ⟨p, hp, rfl⟩ := List.mem_map.mp hd0
    rfl
  · intro d hd
    obtain ⟨d0, hd0, rfl⟩ := List.mem_map.mp hd
    obtain ⟨p, hp, rfl⟩ := List.mem_map.mp hd0
    rfl
  · intro s hs
    have hc : Ev.compare_rdms r s method
        (env.rdm_subset (stimulation_RDM_euclidean env r) (pyInt s))
        (env.rdm_subset (imagery_RDM_euclidean env r) (pyInt s)) ∈ compare_trace env r :=
      List.mem_map_of_mem _ hs
    have hrt : Ev.compare_rdms r s method
        (env.rdm_subset (stimulation_RDM_euclidean env r) (pyInt s))
        (env.rdm_subset (imagery_RDM_euclidean env r) (pyInt s)) ∈ region_trace env r := by
      unfold region_trace
      simp only [List.mem_append]
      exact Or.inl (Or.inl (Or.inl (Or.inr hc)))
    unfold run_trace main_trace
    simp only [List.mem_append]
    exact Or.inl (Or.inr (List.mem_flatMap.mpr ⟨r, hr, hrt⟩))
  · intro r2 s2 m2 a b hmem
    have htag : Tag.compare_t r2 m2 ∈ (run_trace env).map tag :=
      List.mem_map_of_mem tag hmem
    rw [run_tags_eq] at htag
    have hall : (trace_skeleton.all fun t => match t with
        | Tag.compare_t rg m => decide (rg ∈ regions_of_interest) && (m == method)
        | _ => true) = true := by decide
    have hx := List.all_eq_true.mp hall _ htag
    simp only [Bool.and_eq_true, beq_iff_eq, decide_eq_true_eq] at hx
    exact hx

/-- Witness for claim C3's theorem at the first region and the trivial
environment. -/
theorem five_regions_stim_vs_imagery_witness :
    "rPSC_2" ∈ regions_of_interest ∧
    (regions_of_interest.length = 5 ∧
     stimulation_conditions = ["conditions1", "conditions2", "conditions3"] ∧
     imagery_conditions = ["conditions4", "conditions5", "conditions6"] ∧
     (∀ d ∈ stimulation_data env_base "rPSC_2", d.map Prod.fst = stimulation_conditions) ∧
     (∀ d ∈ imagery_data env_base "rPSC_2", d.map Prod.fst = imagery_conditions) ∧
     (∀ s ∈ subjects, Ev.compare_rdms "rPSC_2" s method
        (env_base.rdm_subset (stimulation_RDM_euclidean env_base "rPSC_2") (pyInt s))
        (env_base.rdm_subset (imagery_RDM_euclidean env_base "rPSC_2") (pyInt s)) ∈
          run_trace env_base) ∧
     (∀ (r2 s2 m2 : String) (a b : Nat), Ev.compare_rdms r2 s2 m2 a b ∈ run_trace env_base →
        r2 ∈ regions_of_interest ∧ m2 = method)) :=
  ⟨by decide, five_regions_stim_vs_imagery Nat env_base "rPSC_2" (by decide)⟩

/-- Claim C4: the pipeline's effects happen in the stated order on every run.
Subject data loads and the run-averaging come before any RDM computation for
a region; each region's RDM computations come before that region's RDM
comparisons; comparisons come before the region's significance test; and the
significance test comes before any of the region's result files is written. -/
theorem pipeline_event_order : ∀ (V : Type) (env : Env V) (r : String),
    r ∈ regions_of_interest →
    EventsBefore (fun e => Tag.is_load (tag e)) (fun e => Tag.is_rdm r (tag e)) (run_trace env) ∧
    EventsBefore (fun e => Tag.is_average (tag e)) (fun e => Tag.is_rdm r (tag e)) (run_trace env) ∧
    EventsBefore (fun e => Tag.is_rdm r (tag e)) (fun e => Tag.is_compare r (tag e)) (run_trace env) ∧
    EventsBefore (fun e => Tag.is_compare r (tag e)) (fun e => Tag.is_ttest r (tag e)) (run_trace env) ∧
    EventsBefore (fun e => Tag.is_ttest r (tag e)) (fun e => Tag.is_write r (tag e)) (run_trace env) := by
  intro V env r hr
  have key : ∀ (p q : Tag → Bool), sepB p q trace_skeleton = true →
      EventsBefore (fun e => p (tag e)) (fun e => q (tag e)) (run_trace env) := by
    intro p q hpq
    have h1 : EventsBefore p q ((run_trace env).map tag) := by
      rw [run_tags_eq]
      exact sepB_sound hpq
    exact EventsBefore.of_map h1
  have hc : r = "rPSC_2" ∨ r = "rPSC_1" ∨ r = "rPSC_3b" ∨ r = "rSII_TR50_right" ∨
      r = "rSII_TR50_left" := by
    simpa [regions_of_interest] using hr
  rcases hc with rfl | rfl | rfl | rfl | rfl <;>
    exact ⟨key _ _ (by decide), key _ _ (by decide), key _ _ (by decide),
      key _ _ (by decide), key _ _ (by decide)⟩

/-- Witness for claim C4's theorem at the first region and the trivial
environment. -/
theorem pipeline_event_order_witness :
    "rPSC_2" ∈ regions_of_interest ∧
    (EventsBefore (fun e => Tag.is_load (tag e)) (fun e => Tag.is_rdm "rPSC_2" (tag e)) (run_trace env_base) ∧
     EventsBefore (fun e => Tag.is_average (tag e)) (fun e => Tag.is_rdm "rPSC_2" (tag e)) (run_trace env_base) ∧
     EventsBefore (fun e => Tag.is_rdm "rPSC_2" (tag e)) (fun e => Tag.is_compare "rPSC_2" (tag e)) (run_trace env_base) ∧
     EventsBefore (fun e => Tag.is_compare "rPSC_2" (tag e)) (fun e => Tag.is_ttest "rPSC_2" (tag e)) (run_trace env_base) ∧
     EventsBefore (fun e => Tag.is_ttest "rPSC_2" (tag e)) (fun e => Tag.is_write "rPSC_2" (tag e)) (run_trace env_base)) :=
  ⟨by decide, pipeline_event_order Nat env_base "rPSC_2" (by decide)⟩

/-- Claim C5: for every region the similarity of the stimulation and imagery
RDMs is computed per subject with comparison method "corr" (one value per
each of the ten subjects), and significance is the one-sample t-test of
those ten values against population mean 0 with alternative "greater". -/
theorem similarity_correlation_and_ttest : ∀ (V : Type) (env : Env V) (r : String),
    r ∈ regions_of_interest →
    similiarities env r = subjects.map (fun s =>
      env.entry00 (env.rdm_compare
        (env.rdm_subset (stimulation_RDM_euclidean env r) (pyInt s))
        (env.rdm_subset (imagery_RDM_euclidean env r) (pyInt s)) "corr")) ∧
    (similiarities env r).length = 10 ∧
    subjects.length = 10 ∧
    method = "corr" ∧
    significance env r = env.ttest_1samp (similiarities env r) 0 "greater" ∧
    Ev.ttest r (similiarities env r) 0 "greater" ∈ run_trace env := by
  intro V env r hr
  refine ⟨rfl, rfl, rfl, rfl, rfl, ?_⟩
  have hrt : Ev.ttest r (similiarities env r) 0 "greater" ∈ region_trace env r := by
    unfold region_trace
    simp only [List.mem_append]
    exact Or.inl (Or.inl (Or.inr (List.mem_cons_self _ _)))
  unfold run_trace main_trace
  simp only [List.mem_append]
  exact Or.inl (Or.inr (List.mem_flatMap.mpr ⟨r, hr, hrt⟩))

/-- Witness for claim C5's theorem at the second region and the trivial
environment. -/
theorem similarity_correlation_and_ttest_witness :
    "rPSC_1" ∈ regions_of_interest ∧
    (similiarities env_base "rPSC_1" = subjects.map (fun s =>
      env_base.entry00 (env_base.rdm_compare
        (env_base.rdm_subset (stimulation_RDM_euclidean env_base "rPSC_1") (pyInt s))
        (env_base.rdm_subset (imagery_RDM_euclidean env_base "rPSC_1") (pyInt s)) "corr")) ∧
     (similiarities env_base "rPSC_1").length = 10 ∧
     subjects.length = 10 ∧
     method = "corr" ∧
     significance env_base "rPSC_1" =
       env_base.ttest_1samp (similiarities env_base "rPSC_1") 0 "greater" ∧
     Ev.ttest "rPSC_1" (similiarities env_base "rPSC_1") 0 "greater" ∈ run_trace env_base) :=
  ⟨by decide, similarity_correlation_and_ttest Nat env_base "rPSC_1" (by decide)⟩

/-- Claim C6: for every region and subject the script computes a
mahalanobis-distance RDM of that subject's stimulation data by delegating to
the library, with a noise precision matrix the library estimates from that
subject's ResMS.nii residuals restricted to the region's voxels (with the
voxel-index row stacked on top, as in the source). -/
theorem mahalanobis_rdm_delegation : ∀ (V : Type) (env : Env V) (r s : String),
    r ∈ regions_of_interest → s ∈ subjects →
    stimulation_RDM_mahalanobis env r s =
      env.calc_rdm_noise ((stimulation_data env r).getD (pyInt s - 1) [])
        conditions_key "mahalanobis"
        (env.prec_from_residuals (env.vstack_voxels (env.restrict_residuals
          (env.nib_load (residual_path s))
          (env.ravel_nonzero (voxels_from_region env r) (env.nib_load (residual_path s)))))) ∧
    residual_path s = [datapath, "sub-" ++ s, "1st_level_good_bad_Imag", "ResMS.nii"] ∧
    stimulation_RDMs_mahalanobis_all_subjects env r =
      subjects.map (fun s2 => stimulation_RDM_mahalanobis env r s2) ∧
    Ev.calc_rdm_mahalanobis r s ((stimulation_data env r).getD (pyInt s - 1) [])
      (noise_pres_res env r s) ∈ run_trace env ∧
    (stimulation_data env r).getD (pyInt s - 1) [] ∈ stimulation_data env r := by
  intro V env r s hr hs
  refine ⟨rfl, rfl, rfl, ?_, ?_⟩
  · have hmah : Ev.calc_rdm_mahalanobis r s ((stimulation_data env r).getD (pyInt s - 1) [])
        (noise_pres_res env r s) ∈ mahalanobis_trace env r := by
      unfold mahalanobis_trace
      exact List.mem_flatMap.mpr ⟨s, hs, by simp⟩
    have hrt : Ev.calc_rdm_mahalanobis r s ((stimulation_data env r).getD (pyInt s - 1) [])
        (noise_pres_res env r s) ∈ region_trace env r := by
      unfold region_trace
      simp only [List.mem_append]
      exact Or.inl (Or.inl (Or.inl (Or.inl (Or.inr hmah))))
    unfold run_trace main_trace
    simp only [List.mem_append]
    exact Or.inl (Or.inr (List.mem_flatMap.mpr ⟨r, hr, hrt⟩))
  · have hidx2 : pyInt s - 1 < (stimulation_data env r).length := by
      have hc : s = "001" ∨ s = "002" ∨ s = "003" ∨ s = "004" ∨ s = "005" ∨ s = "006" ∨
          s = "007" ∨ s = "008" ∨ s = "009" ∨ s = "010" := by simpa [subjects] using hs
      have hlen : (stimulation_data env r).length = 10 := rfl
      rw [hlen]
      rcases hc with rfl|rfl|rfl|rfl|rfl|rfl|rfl|rfl|rfl|rfl <;> decide
    rw [List.getD_eq_getElem?_getD, List.getElem?_eq_getElem hidx2]
    exact List.getElem_mem hidx2

/-- Witness for claim C6's theorem at a concrete region and subject. -/
theorem mahalanobis_rdm_delegation_witness :
    ("rPSC_3b" ∈ regions_of_interest ∧ "003" ∈ subjects) ∧
    (stimulation_RDM_mahalanobis env_base "rPSC_3b" "003" =
      env_base.calc_rdm_noise ((stimulation_data env_base "rPSC_3b").getD (pyInt "003" - 1) [])
        conditions_key "mahalanobis"
        (env_base.prec_from_residuals (env_base.vstack_voxels (env_base.restrict_residuals
          (env_base.nib_load (residual_path "003"))
          (env_base.ravel_nonzero (voxels_from_region env_base "rPSC_3b")
            (env_base.nib_load (residual_path "003")))))) ∧
     residual_path "003" = [datapath, "sub-" ++ "003", "1st_level_good_bad_Imag", "ResMS.nii"] ∧
     stimulation_RDMs_mahalanobis_all_subjects env_base "rPSC_3b" =
       subjects.map (fun s2 => stimulation_RDM_mahalanobis env_base "rPSC_3b" s2) ∧
     Ev.calc_rdm_mahalanobis "rPSC_3b" "003"
       ((stimulation_data env_base "rPSC_3b").getD (pyInt "003" - 1) [])
       (noise_pres_res env_base "rPSC_3b" "003") ∈ run_trace env_base ∧
     (stimulation_data env_base "rPSC_3b").getD (pyInt "003" - 1) [] ∈
       stimulation_data env_base "rPSC_3b") :=
  ⟨⟨by decide, by decide⟩,
    mahalanobis_rdm_delegation Nat env_base "rPSC_3b" "003" (by decide) (by decide)⟩

/-- Claim C7: the program with the whole per-subject mahalanobis block
removed is observably equivalent to the original: same printed lines and
same filesystem mutations in the same order, hence the same files on disk,
for every environment. -/
theorem mahalanobis_block_output_irrelevant : ∀ (V : Type) (env : Env V),
    observables (run_trace env) = observables (run_trace_no_mahalanobis env) ∧
    files_state (run_trace env) = files_state (run_trace_no_mahalanobis env) := by
  intro V env
  refine ⟨observables_no_mahalanobis env, ?_⟩
  rw [files_state_eq_observables, observables_no_mahalanobis env, ← files_state_eq_observables]

/-- Claim C8: each region's 10-value slice of the anova input array is
obtained by re-parsing the `stim_imag_rsa_corr.txt` content written for that
region (dropping the final parsed element), and whenever parsing inverts
serialization up to that final element, the assembled 50-value array is
exactly the five in-memory similarity lists in region order. -/
theorem anova_inputs_roundtrip : ∀ (V : Type) (env : Env V),
    (∀ r ∈ regions_of_interest,
      region_similiarity_values env r =
        env.genfromtxt (env.serialize_rsa_list (similiarities env r))) ∧
    ((∀ r ∈ regions_of_interest,
        (env.genfromtxt (env.serialize_rsa_list (similiarities env r))).dropLast =
          similiarities env r) →
      all_similiarity_values env = regions_of_interest.flatMap fun r => similiarities env r) := by
  intro V env
  constructor
  · intro r hr
    unfold region_similiarity_values
    rw [rsa_corr_content_eq env r hr]
  · intro h
    have e1 : (region_similiarity_values env "rPSC_2").dropLast =
        similiarities env "rPSC_2" := by
      unfold region_similiarity_values
      rw [rsa_corr_content_eq env _ (by decide)]
      exact h _ (by decide)
    have e2 : (region_similiarity_values env "rPSC_1").dropLast =
        similiarities env "rPSC_1" := by
      unfold region_similiarity_values
      rw [rsa_corr_content_eq env _ (by decide)]
      exact h _ (by decide)
    have e3 : (region_similiarity_values env "rPSC_3b").dropLast =
        similiarities env "rPSC_3b" := by
      unfold region_similiarity_values
      rw [rsa_corr_content_eq env _ (by decide)]
      exact h _ (by decide)
    have e4 : (region_similiarity_values env "rSII_TR50_right").dropLast =
        similiarities env "rSII_TR50_right" := by
      unfold region_similiarity_values
      rw [rsa_corr_content_eq env _ (by decide)]
      exact h _ (by decide)
    have e5 : (region_similiarity_values env "rSII_TR50_left").dropLast =
        similiarities env "rSII_TR50_left" := by
      unfold region_similiarity_values
      rw [rsa_corr_content_eq env _ (by decide)]
      exact h _ (by decide)
    unfold all_similiarity_values
    simp only [regions_of_interest, List.enum, List.enumFrom, List.foldl_cons, List.foldl_nil]
    rw [e1, e2, e3, e4, e5]
    rfl

/-- Witness for claim C8's theorem: the trivial environment satisfies the
round-trip hypothesis (its parser returns eleven values whose first ten are
the serialized similarities) and the assembled array is the concatenation. -/
theorem anova_inputs_roundtrip_witness :
    (∀ r ∈ regions_of_interest,
        (env_base.genfromtxt (env_base.serialize_rsa_list (similiarities env_base r))).dropLast =
          similiarities env_base r) ∧
    (all_similiarity_values env_base =
      regions_of_interest.flatMap fun r => similiarities env_base r) := by
  have h : ∀ r ∈ regions_of_interest,
      (env_base.genfromtxt (env_base.serialize_rsa_list (similiarities env_base r))).dropLast =
        similiarities env_base r := by decide
  exact ⟨h, (anova_inputs_roundtrip Nat env_base).2 h⟩

/-- Claim C9: the script is a pure function of its inputs and collaborators:
equal environments give identical traces, identical observable behaviour and
identical final files.  Determinism holds by construction of the sequential
embedding, which has no nondeterministic constructs to model. -/
theorem script_deterministic : ∀ (V : Type) (env1 env2 : Env V), env1 = env2 →
    run_trace env1 = run_trace env2 ∧
    observables (run_trace env1) = observables (run_trace env2) ∧
    files_state (run_trace env1) = files_state (run_trace env2) := by
  intro V env1 env2 h
  subst h
  exact ⟨rfl, rfl, rfl⟩

/-- Witness for claim C9's theorem at the trivial environment. -/
theorem script_deterministic_witness :
    env_base = env_base ∧
    (run_trace env_base = run_trace env_base ∧
     observables (run_trace env_base) = observables (run_trace env_base) ∧
     files_state (run_trace env_base) = files_state (run_trace env_base)) :=
  ⟨rfl, script_deterministic Nat env_base env_base rfl⟩

/-- Claim C10: every dataset handed to the RDM library is built from the
region's 3-D array (6 conditions, region voxels, 10 participants): the ten
per-participant datasets carry observation labels conditions1..conditions6
with rows drawn from that array, and the stimulation/imagery datasets are
exactly their condition subsets. -/
theorem rsa_dataset_contract : ∀ (V : Type) (env : Env V) (r : String),
    r ∈ regions_of_interest →
    (region_datasets env r).length = subjects.length ∧
    subjects.length = 10 ∧
    (∀ d ∈ region_datasets env r,
      d.map Prod.fst = ["conditions1", "conditions2", "conditions3",
        "conditions4", "conditions5", "conditions6"] ∧
      ∀ pr ∈ d, ∃ c, c < 6 ∧ ∃ p, p < 10 ∧
        pr = (conditions_key ++ toString (c + 1), data_from_region env r c p)) ∧
    (∀ d ∈ stimulation_data env r, ∃ d0 ∈ region_datasets env r,
        d = subset_obs d0 stimulation_conditions) ∧
    (∀ d ∈ imagery_data env r, ∃ d0 ∈ region_datasets env r,
        d = subset_obs d0 imagery_conditions) := by
  intro V env r hr
  refine ⟨rfl, rfl, ?_, ?_, ?_⟩
  · intro d hd
    simp only [region_datasets, create_rsa_datasets] at hd
    obtain ⟨p, hp, rfl⟩ := List.mem_map.mp hd
    refine ⟨rfl, ?_⟩
    intro pr hpr
    obtain ⟨c, hc, rfl⟩ := List.mem_map.mp hpr
    exact ⟨c, List.mem_range.mp hc, p, List.mem_range.mp hp, rfl⟩
  · intro d hd
    obtain ⟨d0, hd0, rfl⟩ := List.mem_map.mp hd
    exact ⟨d0, hd0, rfl⟩
  · intro d hd
    obtain ⟨d0, hd0, rfl⟩ := List.mem_map.mp hd
    exact ⟨d0, hd0, rfl⟩

/-- Witness for claim C10's theorem at a concrete region and the trivial
environment. -/
theorem rsa_dataset_contract_witness :
    "rSII_TR50_right" ∈ regions_of_interest ∧
    ((region_datasets env_base "rSII_TR50_right").length = subjects.length ∧
     subjects.length = 10 ∧
     (∀ d ∈ region_datasets env_base "rSII_TR50_right",
       d.map Prod.fst = ["conditions1", "conditions2", "conditions3",
         "conditions4", "conditions5", "conditions6"] ∧
       ∀ pr ∈ d, ∃ c, c < 6 ∧ ∃ p, p < 10 ∧
         pr = (conditions_key ++ toString (c + 1),
           data_from_region env_base "rSII_TR50_right" c p)) ∧
     (∀ d ∈ stimulation_data env_base "rSII_TR50_right",
        ∃ d0 ∈ region_datasets env_base "rSII_TR50_right",
          d = subset_obs d0 stimulation_conditions) ∧
     (∀ d ∈ imagery_data env_base "rSII_TR50_right",
        ∃ d0 ∈ region_datasets env_base "rSII_TR50_right",
          d = subset_obs d0 imagery_conditions)) :=
  ⟨by decide, rsa_dataset_contract Nat env_base "rSII_TR50_right" (by decide)⟩

end RsaScript
